import Mathlib

/-!
Shallow embedding of the `native-tic-tac-toe` Solana program:
`src/state.rs` (game record and move logic), `src/processor.rs`
(instruction handlers) and `src/instruction.rs` (instruction decoding).

Modelling conventions:
* `Pubkey` (a 32-byte address) is modelled as `Nat`; only equality of
  addresses is ever used by the program.
* `u8` / `u64` arithmetic is modelled on `Nat` with an explicit `% 2^w`
  where the source can overflow.
* A Rust panic (out-of-bounds index, `unwrap` on `None`) is an explicit
  `panicked` outcome of the embedded function.
* Cross-program invocations that move tokens are modelled as `Transfer`
  records returned by the handler; the surrounding runtime guarantees
  they either all commit or the whole instruction aborts.
-/

namespace TicTacToe

abbrev Pubkey := Nat

/-- `Symbol` from `src/state.rs`. -/
inductive Symbol where
  | X
  | O
deriving DecidableEq, Repr, Fintype

/-- `GameState` from `src/state.rs`. -/
inductive GameState where
  | Unaccepted
  | Ongoing
  | Over (winner : Pubkey)
  | Draw
deriving DecidableEq, Repr

/-- The 3×3 board `[[Option<Symbol>; 3]; 3]` from `src/state.rs`. -/
abbrev Board := Fin 3 → Fin 3 → Option Symbol

/-- `Game` from `src/state.rs`. `isInit` embeds the `is_initialized`
field. `turns` is a `u8` in the source. -/
structure Game where
  players : Fin 2 → Pubkey
  board : Board
  state : GameState
  turns : Nat
  stake_mint : Pubkey
  stake_amount : Nat
  isInit : Bool
deriving DecidableEq

/-- The custom error enum from `src/error.rs`. -/
inductive Error where
  | UnauthorizedToAccept
  | AlreadyAccepted
  | UnacceptedGame
  | GameAlreayOver
  | InvalidTileSelected
  | TileOccupied
  | CanNotPlay
  | OngoingGame
  | UnclosableGame
  | UnauthorizedToClose
deriving DecidableEq, Repr

/-- The `solana_program::program_error::ProgramError` variants the program
uses; `Custom` carries an `src/error.rs` error. -/
inductive ProgErr where
  | InvalidArgument
  | MissingRequiredSignature
  | IncorrectProgramId
  | IllegalOwner
  | InsufficientFunds
  | InvalidAccountData
  | InvalidInstructionData
  | UninitializedAccount
  | NotEnoughAccountKeys
  | Custom (e : Error)
deriving DecidableEq, Repr

/-- Outcome of `Game::play`: the updated game, a returned error, or a Rust
panic. -/
inductive PlayRes where
  | ok (g : Game)
  | err (e : ProgErr)
  | panicked
deriving DecidableEq

/-- `self.board[row][col] = Some(symbol)` on a 3×3 array. -/
def setCell (b : Board) (r c : Fin 3) (s : Symbol) : Board :=
  fun i j => if i = r ∧ j = c then some s else b i j

/-- Row test from the loop body of `Game::update_state`
(`src/state.rs` lines 53-54): `board[i][0]` is occupied and equals
`board[i][1]` and `board[i][2]`. -/
def rowWin (b : Board) (i : Fin 3) : Bool :=
  (b i 0).isSome && decide (b i 0 = b i 1) && decide (b i 0 = b i 2)

/-- Column test from the loop body of `Game::update_state`
(`src/state.rs` lines 61-62). -/
def colWin (b : Board) (i : Fin 3) : Bool :=
  (b 0 i).isSome && decide (b 0 i = b 1 i) && decide (b 0 i = b 2 i)

/-- `players[(turns % 2) as usize]`, the expression used both for the
acting player and (inside `update_state`) for the declared winner. -/
def Game.playerAtTurn (g : Game) : Pubkey :=
  g.players ⟨g.turns % 2, by omega⟩

/-- `Game::update_state` (`src/state.rs` lines 50-73). The source loops
`i = 0, 1, 2`, testing row `i` then column `i`; each hit sets
`state = Over { winner: players[(turns % 2)] }` and returns, so the chain
of tests below, in loop order, is the same function. If no line is
complete and `turns == 9` the state becomes `Draw`; otherwise nothing
changes. Note the winner is computed from `turns` AFTER `play` has
incremented it. -/
def Game.update_state (g : Game) : Game :=
  if rowWin g.board 0 || colWin g.board 0 || rowWin g.board 1 || colWin g.board 1 ||
      rowWin g.board 2 || colWin g.board 2 then
    { g with state := .Over g.playerAtTurn }
  else if g.turns = 9 then
    { g with state := .Draw }
  else g

/-- `Game::play` (`src/state.rs` lines 26-49). The source bounds check is
`row > 3 || col > 3`, so `row = 3` or `col = 3` survives it and the
subsequent `self.board[row][col]` index panics: that case is the
`panicked` outcome. `turns += 1` is a `u8` increment, hence `% 256`. -/
def Game.play (g : Game) (row col : Nat) : PlayRes :=
  if g.state = GameState.Unaccepted then
    .err (.Custom .UnacceptedGame)
  else if g.state ≠ GameState.Ongoing then
    .err (.Custom .GameAlreayOver)
  else if row > 3 ∨ col > 3 then
    .err (.Custom .InvalidTileSelected)
  else if h : row < 3 ∧ col < 3 then
    match g.board ⟨row, h.1⟩ ⟨col, h.2⟩ with
    | some _ => .err (.Custom .TileOccupied)
    | none =>
      let symbol := if g.turns % 2 = 0 then Symbol.X else Symbol.O
      let g1 : Game := { g with
        board := setCell g.board ⟨row, h.1⟩ ⟨col, h.2⟩ symbol,
        turns := (g.turns + 1) % 256 }
      .ok g1.update_state
  else
    -- row = 3 or col = 3: `self.board[row][col]` is out of bounds
    .panicked

/-- Modelled from the spec: `Game::play` as invoked by `play_game`
(`src/processor.rs` line 229) also receives the acting player's key,
but the variant of `Game::play` present in `src/state.rs` takes only
`row`/`col` and has no authorization check. Per the spec, after the tile
checks, a caller other than the turn owner `players[turns mod 2]` fails
`CanNotPlay`. All other steps are the `src/state.rs` code unchanged. -/
def Game.playAuth (g : Game) (player : Pubkey) (row col : Nat) : PlayRes :=
  if g.state = GameState.Unaccepted then
    .err (.Custom .UnacceptedGame)
  else if g.state ≠ GameState.Ongoing then
    .err (.Custom .GameAlreayOver)
  else if row > 3 ∨ col > 3 then
    .err (.Custom .InvalidTileSelected)
  else if h : row < 3 ∧ col < 3 then
    match g.board ⟨row, h.1⟩ ⟨col, h.2⟩ with
    | some _ => .err (.Custom .TileOccupied)
    | none =>
      if player ≠ g.playerAtTurn then
        .err (.Custom .CanNotPlay)
      else
        let symbol := if g.turns % 2 = 0 then Symbol.X else Symbol.O
        let g1 : Game := { g with
          board := setCell g.board ⟨row, h.1⟩ ⟨col, h.2⟩ symbol,
          turns := (g.turns + 1) % 256 }
        .ok g1.update_state
  else
    .panicked

/-! ## The processor (`src/processor.rs`) -/

/-- `spl_token::ID`, an arbitrary fixed address distinct from the others
used below. -/
def TOKEN_PROGRAM_ID : Pubkey := 1000001

/-- `solana_program::system_program::ID`. -/
def SYSTEM_PROGRAM_ID : Pubkey := 1000002

/-- Models the external `Pubkey::find_program_address`: a deterministic
function of the seed bytes and the program id. The program only ever
compares its output for equality, so any definite injective-enough
encoding serves; `tag` 0 stands for the seed string `escrow` (with the
mint key as second seed), `tag` 1 for `authority`. -/
def findAddr (tag extra pid : Nat) : Pubkey :=
  ((tag + extra + pid) * (tag + extra + pid) + tag * 65536 + extra) * 65536 + pid + 2000000

/-- Address derived from seeds `["escrow", mint]`. -/
def escrowKeyFor (mint pid : Pubkey) : Pubkey := findAddr 0 mint pid

/-- Address derived from seeds `["authority"]`. -/
def authorityKeyFor (pid : Pubkey) : Pubkey := findAddr 1 0 pid

/-- The fields of a `solana_program::account_info::AccountInfo` the
program reads. -/
structure AccountMeta where
  key : Pubkey
  owner : Pubkey
  isSigner : Bool
deriving DecidableEq

/-- The fields of an `spl_token::state::Account` the program reads.
`amount` is a `u64`. -/
structure TokenAccount where
  mint : Pubkey
  owner : Pubkey
  amount : Nat
deriving DecidableEq

/-- One SPL-token transfer performed through `invoke` / `invoke_signed`. -/
structure Transfer where
  source : Pubkey
  dest : Pubkey
  amount : Nat
deriving DecidableEq

/-- Accounts and stored data reaching `play_game`
(`src/processor.rs` lines 209-232). `stored` is the game record
deserialized from the game account's data. -/
structure PlayGameInput where
  player : AccountMeta
  game_account : AccountMeta
  program_id : Pubkey
  stored : Game
deriving DecidableEq

/-- `play_game` (`src/processor.rs` lines 209-232). On success the
handler returns `Ok(())` WITHOUT serializing the mutated `game` back
into the account (`accept_game` at lines 203-204 does serialize), so the
persisted record returned in `ok` is the unchanged `stored` record. -/
def play_game (inp : PlayGameInput) (row col : Nat) : PlayRes :=
  if ¬inp.player.isSigner then
    .err .MissingRequiredSignature
  else if inp.game_account.owner ≠ inp.program_id then
    .err .IllegalOwner
  else
    match inp.stored.playAuth inp.player.key row col with
    | .ok _ => .ok inp.stored
    | .err e => .err e
    | .panicked => .panicked

/-- Accounts and stored data reaching `accept_game`
(`src/processor.rs` lines 145-207). `send_account` is the result of
`Account::unpack` on the token account's data (`none` = unpack failure,
surfaced as `InvalidAccountData`); `game` is the record deserialized
from the game account. -/
structure AcceptInput where
  player_two : AccountMeta
  game_account : AccountMeta
  escrow : AccountMeta
  token_account : AccountMeta
  token_program : AccountMeta
  program_id : Pubkey
  send_account : Option TokenAccount
  game : Game
deriving DecidableEq

/-- `accept_game` (`src/processor.rs` lines 145-207). The stake-capture
transfer of `game.stake_amount` into escrow is performed by the token
program; on success the updated record (state set to `Ongoing`) is
serialized back, and is the value returned in `ok`. -/
def accept_game (inp : AcceptInput) : Except ProgErr Game :=
  if ¬inp.player_two.isSigner then
    .error .MissingRequiredSignature
  else if inp.game_account.owner ≠ inp.program_id ∨
      inp.token_account.owner ≠ TOKEN_PROGRAM_ID then
    .error .IllegalOwner
  else if inp.token_program.key ≠ TOKEN_PROGRAM_ID then
    .error .IncorrectProgramId
  else
    match inp.send_account with
    | none => .error .InvalidAccountData
    | some send =>
      if ¬inp.game.isInit then
        .error .UninitializedAccount
      else if inp.game.players 1 ≠ inp.player_two.key then
        .error (.Custom .UnauthorizedToAccept)
      else if inp.game.state ≠ GameState.Unaccepted then
        .error (.Custom .AlreadyAccepted)
      else if send.owner ≠ inp.player_two.key then
        .error .InvalidArgument
      else if send.amount < inp.game.stake_amount then
        .error .InsufficientFunds
      else if inp.escrow.key ≠ escrowKeyFor inp.game.stake_mint inp.program_id then
        .error .InvalidArgument
      else
        .ok { inp.game with state := GameState.Ongoing }

/-- Accounts and stored data reaching `create_game`
(`src/processor.rs` lines 38-143). `token_account_data` is the result of
`Account::unpack` on the source token account. -/
structure CreateInput where
  player : AccountMeta
  game_account : AccountMeta
  mint : AccountMeta
  escrow : AccountMeta
  token_account : AccountMeta
  token_program : AccountMeta
  system_program : AccountMeta
  program_id : Pubkey
  token_account_data : Option TokenAccount
deriving DecidableEq

/-- `create_game` (`src/processor.rs` lines 38-143). Escrow-account
creation and rent bookkeeping are external collaborators and are
abstracted as succeeding; a freshly created game account is zeroed, so
it deserializes to a record with `is_initialized = false` and the
double-init check at line 129 passes. On success the handler returns
the initialized record it serializes at line 139 together with the
stake-capture transfer of line 104. -/
def create_game (inp : CreateInput) (player_two : Pubkey) (stake_amount : Nat) :
    Except ProgErr (Game × Transfer) :=
  if stake_amount = 0 ∨ player_two = inp.player.key then
    .error .InvalidArgument
  else if ¬inp.player.isSigner ∨ ¬inp.game_account.isSigner then
    .error .MissingRequiredSignature
  else if inp.system_program.key ≠ SYSTEM_PROGRAM_ID ∨
      inp.token_program.key ≠ TOKEN_PROGRAM_ID then
    .error .IncorrectProgramId
  else if inp.escrow.key ≠ escrowKeyFor inp.mint.key inp.program_id then
    .error .IncorrectProgramId
  else if inp.mint.key ≠ TOKEN_PROGRAM_ID ∨ inp.token_account.key ≠ TOKEN_PROGRAM_ID then
    .error .IllegalOwner
  else
    match inp.token_account_data with
    | none => .error .InvalidAccountData
    | some send =>
      if send.mint ≠ inp.mint.key ∨ send.owner ≠ inp.player.key then
        .error .InvalidArgument
      else if send.amount < stake_amount then
        .error .InsufficientFunds
      else
        .ok ({ players := fun i => if i = 0 then inp.player.key else player_two
               board := fun _ _ => none
               state := GameState.Unaccepted
               turns := 0
               stake_mint := inp.mint.key
               stake_amount := stake_amount
               isInit := true },
             { source := inp.token_account.key
               dest := inp.escrow.key
               amount := stake_amount })

/-- Accounts and stored data reaching `close_game`
(`src/processor.rs` lines 234-348). The handler pulls further accounts
off the iterator inside the `Draw` / `Over` branches; those remaining
accounts, each paired with the result of `Account::unpack` on its data,
are `rest`. -/
structure CloseInput where
  player_one : AccountMeta
  game_account : AccountMeta
  escrow : AccountMeta
  authority : AccountMeta
  token_program : AccountMeta
  system_program : AccountMeta
  program_id : Pubkey
  game : Game
  rest : List (AccountMeta × Option TokenAccount)
deriving DecidableEq

/-- Outcome of `close_game`: the token transfers performed, or an error. -/
inductive CloseRes where
  | ok (transfers : List Transfer)
  | err (e : ProgErr)
deriving DecidableEq

/-- `close_game` (`src/processor.rs` lines 234-348). After the payout
branch, the handler also drains the game account's lamports to
`players[0]` (storage reclaim, lines 343-345); only the token transfers
are recorded here. `2 * game.stake_amount` at line 337 is `u64`
multiplication, hence the `% 2^64`. -/
def close_game (inp : CloseInput) : CloseRes :=
  if inp.game_account.owner ≠ inp.program_id then
    .err .IllegalOwner
  else if inp.escrow.owner ≠ TOKEN_PROGRAM_ID then
    .err .IllegalOwner
  else if inp.token_program.key ≠ TOKEN_PROGRAM_ID ∨
      inp.system_program.key ≠ SYSTEM_PROGRAM_ID then
    .err .IncorrectProgramId
  else if inp.authority.key ≠ authorityKeyFor inp.program_id then
    .err .InvalidArgument
  else if inp.player_one.key ≠ inp.game.players 0 then
    .err .InvalidArgument
  else if inp.escrow.key ≠ escrowKeyFor inp.game.stake_mint inp.program_id then
    .err .InvalidArgument
  else
    match inp.game.state with
    | .Unaccepted => .err (.Custom .UnacceptedGame)
    | .Ongoing => .err (.Custom .OngoingGame)
    | .Draw =>
      match inp.rest with
      | (acc1, data1) :: (acc2, data2) :: _ =>
        if acc1.owner ≠ TOKEN_PROGRAM_ID ∨ acc2.owner ≠ TOKEN_PROGRAM_ID then
          .err .InvalidArgument
        else
          match data1, data2 with
          | some recv1, some recv2 =>
            if recv1.owner ≠ inp.game.players 0 ∨ recv2.owner ≠ inp.game.players 1 then
              .err .InvalidArgument
            else if recv1.mint ≠ inp.game.stake_mint ∨ recv2.mint ≠ inp.game.stake_mint then
              .err .InvalidArgument
            else
              .ok [{ source := inp.escrow.key, dest := acc1.key,
                     amount := inp.game.stake_amount },
                   { source := inp.escrow.key, dest := acc2.key,
                     amount := inp.game.stake_amount }]
          | _, _ => .err .InvalidAccountData
      | _ => .err .NotEnoughAccountKeys
    | .Over winner =>
      match inp.rest with
      | (acc, data) :: _ =>
        if acc.owner ≠ TOKEN_PROGRAM_ID then
          .err .IllegalOwner
        else
          match data with
          | some recv =>
            if recv.owner ≠ winner ∨ recv.mint ≠ inp.game.stake_mint then
              .err .InvalidArgument
            else
              .ok [{ source := inp.escrow.key, dest := acc.key,
                     amount := 2 * inp.game.stake_amount % 2 ^ 64 }]
          | none => .err .InvalidAccountData
      | [] => .err .NotEnoughAccountKeys

/-- Accounts and stored data reaching `cancel_game`
(`src/processor.rs` lines 350-419). -/
structure CancelInput where
  player_one : AccountMeta
  game_account : AccountMeta
  escrow : AccountMeta
  token_account : AccountMeta
  authority : AccountMeta
  token_program : AccountMeta
  program_id : Pubkey
  game : Game
  token_account_data : Option TokenAccount
deriving DecidableEq

/-- `cancel_game` (`src/processor.rs` lines 350-419). On success the
creator's stake flows back from escrow (the returned `Transfer`) and the
game account's lamports are drained to `players[0]`. The stored game
record is never modified. -/
def cancel_game (inp : CancelInput) : Except ProgErr Transfer :=
  if ¬inp.player_one.isSigner then
    .error .MissingRequiredSignature
  else if inp.game_account.owner ≠ inp.program_id then
    .error .IllegalOwner
  else if inp.escrow.owner ≠ TOKEN_PROGRAM_ID ∨
      inp.token_account.owner ≠ TOKEN_PROGRAM_ID then
    .error .InvalidArgument
  else if inp.authority.key ≠ authorityKeyFor inp.program_id then
    .error .InvalidArgument
  else if inp.token_program.key ≠ TOKEN_PROGRAM_ID then
    .error .IncorrectProgramId
  else if inp.game.state ≠ GameState.Unaccepted then
    .error (.Custom .UnclosableGame)
  else if inp.player_one.key ≠ inp.game.players 0 then
    .error (.Custom .UnauthorizedToClose)
  else if inp.escrow.key ≠ escrowKeyFor inp.game.stake_mint inp.program_id then
    .error .InvalidArgument
  else
    match inp.token_account_data with
    | none => .error .InvalidAccountData
    | some recv =>
      if recv.owner ≠ inp.player_one.key then
        .error .InvalidArgument
      else if recv.mint ≠ inp.game.stake_mint then
        .error .InvalidArgument
      else
        .ok { source := inp.escrow.key, dest := inp.token_account.key,
              amount := inp.game.stake_amount }

/-! ## The instruction decoder (`src/instruction.rs`) -/

/-- `Instruction` from `src/instruction.rs`; `row`/`col` are `usize`
cast from single bytes. -/
inductive Instruction where
  | CreateGame (player_two : Pubkey) (stake_amount : Nat)
  | AcceptGame
  | PlayGame (row col : Nat)
  | CloseGame
  | CancelGame
deriving DecidableEq, Repr

/-- Outcome of `Instruction::unpack_from_slice`. -/
inductive UnpackRes where
  | ok (i : Instruction)
  | err (e : ProgErr)
  | panicked
deriving DecidableEq, Repr

/-- Little-endian base-256 value of a byte list: the borsh encoding of a
`u64` (8 bytes) and the raw 32 bytes of a `Pubkey` both read this way. -/
def bytesToNat (l : List Nat) : Nat :=
  l.foldr (fun b acc => b + 256 * acc) 0

/-- `Instruction::unpack_from_slice` (`src/instruction.rs` lines 48-74).
`data.split_first().unwrap()` panics on an empty buffer. For opcode 0,
`&rest[..32]` panics when `rest` has fewer than 32 bytes and
`&rest[32..40]` panics when it has fewer than 40; with at least 40 bytes
both borsh reads succeed and any further bytes are ignored. For opcode
2 the length is checked explicitly; opcodes 1, 3, 4 ignore the payload
entirely. -/
def unpack_from_slice (data : List Nat) : UnpackRes :=
  match data with
  | [] => .panicked
  | first :: rest =>
    match first with
    | 0 =>
      if rest.length < 40 then .panicked
      else .ok (.CreateGame (bytesToNat (rest.take 32))
                            (bytesToNat ((rest.drop 32).take 8)))
    | 1 => .ok .AcceptGame
    | 2 =>
      match rest with
      | [r, c] => .ok (.PlayGame r c)
      | _ => .err .InvalidInstructionData
    | 3 => .ok .CloseGame
    | 4 => .ok .CancelGame
    | _ => .err .InvalidInstructionData

/-! ## Spec-side predicate and projections used in statements -/

/-- The spec's terminal-detection condition: some row or some column
holds three identical occupied symbols (diagonals deliberately absent,
matching the documented behavior). -/
def hasLineSpec (b : Board) : Prop :=
  ∃ s : Symbol,
    (∃ i : Fin 3, ∀ j : Fin 3, b i j = some s) ∨
    (∃ j : Fin 3, ∀ i : Fin 3, b i j = some s)

instance (b : Board) : Decidable (hasLineSpec b) := by
  unfold hasLineSpec; infer_instance

/-- State of the game returned by a successful `play`, if any. -/
def PlayRes.stateOf : PlayRes → Option GameState
  | .ok g => some g.state
  | _ => none

/-- Turn counter of the game returned by a successful `play`, if any. -/
def PlayRes.turnsOf : PlayRes → Option Nat
  | .ok g => some g.turns
  | _ => none

/-! ## Concrete instances used by witnesses and counterexamples -/

/-- An accepted game between players `10` and `11` with an empty board. -/
def demoOngoing : Game where
  players := fun i => if i = 0 then 10 else 11
  board := fun _ _ => none
  state := .Ongoing
  turns := 0
  stake_mint := 3
  stake_amount := 100
  isInit := true

/-- The same game still unaccepted. -/
def demoUnaccepted : Game := { demoOngoing with state := GameState.Unaccepted }

/-- Ongoing position after X X _ / O O _ / _ _ _ in four turns; X (player
`10`) is to move and `(0,2)` completes row 0. -/
def demoXAboutToWin : Game :=
  { demoOngoing with
    board := fun i j =>
      if i = 0 ∧ j = 0 then some Symbol.X
      else if i = 0 ∧ j = 1 then some Symbol.X
      else if i = 1 ∧ j = 0 then some Symbol.O
      else if i = 1 ∧ j = 1 then some Symbol.O
      else none
    turns := 4 }

/-- `demoOngoing` after X plays `(0,0)`: the in-memory record `play`
builds (one occupied cell, `turns = 1`, still ongoing). -/
def demoAfter00 : Game :=
  { demoOngoing with
    board := setCell demoOngoing.board 0 0 Symbol.X
    turns := 1 }

/-- A `play_game` call by player `10` on a correctly owned game account
storing `demoOngoing`; program id `55`. -/
def demoPlayInput : PlayGameInput where
  player := { key := 10, owner := 0, isSigner := true }
  game_account := { key := 500, owner := 55, isSigner := false }
  program_id := 55
  stored := demoOngoing

/-- A well-formed `accept_game` call by the invited player `11` on
`demoUnaccepted`. -/
def demoAcceptInput : AcceptInput where
  player_two := { key := 11, owner := 0, isSigner := true }
  game_account := { key := 500, owner := 55, isSigner := false }
  escrow := { key := escrowKeyFor 3 55, owner := TOKEN_PROGRAM_ID, isSigner := false }
  token_account := { key := 601, owner := TOKEN_PROGRAM_ID, isSigner := false }
  token_program := { key := TOKEN_PROGRAM_ID, owner := 0, isSigner := false }
  program_id := 55
  send_account := some { mint := 3, owner := 11, amount := 100 }
  game := demoUnaccepted

/-- A `create_game` call that passes every check before line 70 but
supplies an ordinary mint address `3` (not the token program id). -/
def demoCreateBadMint : CreateInput where
  player := { key := 10, owner := 0, isSigner := true }
  game_account := { key := 500, owner := 0, isSigner := true }
  mint := { key := 3, owner := 0, isSigner := false }
  escrow := { key := escrowKeyFor 3 55, owner := 0, isSigner := false }
  token_account := { key := 601, owner := TOKEN_PROGRAM_ID, isSigner := false }
  token_program := { key := TOKEN_PROGRAM_ID, owner := 0, isSigner := false }
  system_program := { key := SYSTEM_PROGRAM_ID, owner := 0, isSigner := false }
  program_id := 55
  token_account_data := some { mint := 3, owner := 10, amount := 500 }

/-- The only shape of `create_game` call the line-70 check lets through:
the mint and token accounts both carry the token program id itself as
their address. -/
def demoCreateTokenMint : CreateInput :=
  { demoCreateBadMint with
    mint := { key := TOKEN_PROGRAM_ID, owner := 0, isSigner := false }
    escrow := { key := escrowKeyFor TOKEN_PROGRAM_ID 55, owner := 0, isSigner := false }
    token_account := { key := TOKEN_PROGRAM_ID, owner := TOKEN_PROGRAM_ID, isSigner := false }
    token_account_data := some { mint := TOKEN_PROGRAM_ID, owner := 10, amount := 500 } }

/-- A well-formed `close_game` call by the creator on a drawn game, with
both players' receiving accounts supplied. -/
def demoCloseDraw : CloseInput where
  player_one := { key := 10, owner := 0, isSigner := true }
  game_account := { key := 500, owner := 55, isSigner := false }
  escrow := { key := escrowKeyFor 3 55, owner := TOKEN_PROGRAM_ID, isSigner := false }
  authority := { key := authorityKeyFor 55, owner := 0, isSigner := false }
  token_program := { key := TOKEN_PROGRAM_ID, owner := 0, isSigner := false }
  system_program := { key := SYSTEM_PROGRAM_ID, owner := 0, isSigner := false }
  program_id := 55
  game := { demoOngoing with state := GameState.Draw }
  rest := [({ key := 701, owner := TOKEN_PROGRAM_ID, isSigner := false },
            some { mint := 3, owner := 10, amount := 0 }),
           ({ key := 702, owner := TOKEN_PROGRAM_ID, isSigner := false },
            some { mint := 3, owner := 11, amount := 0 })]

/-- The same call on a game won by player `11`, with the winner's
receiving account supplied. -/
def demoCloseOver : CloseInput :=
  { demoCloseDraw with
    game := { demoOngoing with state := GameState.Over 11 }
    rest := [({ key := 703, owner := TOKEN_PROGRAM_ID, isSigner := false },
              some { mint := 3, owner := 11, amount := 0 })] }

/-- The same call while the game is still unaccepted. -/
def demoCloseUnaccepted : CloseInput := { demoCloseDraw with game := demoUnaccepted }

/-- The same call while the game is still ongoing. -/
def demoCloseOngoing : CloseInput := { demoCloseDraw with game := demoOngoing }


/-- The game record and stake-capture transfer `create_game` commits for
`demoCreateTokenMint` with invitee `11` and stake `100`. -/
def demoCreatedOk : Game × Transfer :=
  ({ players := fun i => if i = 0 then 10 else 11
     board := fun _ _ => none
     state := GameState.Unaccepted
     turns := 0
     stake_mint := TOKEN_PROGRAM_ID
     stake_amount := 100
     isInit := true },
   { source := TOKEN_PROGRAM_ID
     dest := escrowKeyFor TOKEN_PROGRAM_ID 55
     amount := 100 })


/-- `demoXAboutToWin` after the winning move at `(0,2)`: `turns = 5` and
the state records `Over 11`. -/
def demoXWon : Game :=
  { demoXAboutToWin with
    board := setCell demoXAboutToWin.board 0 2 Symbol.X
    turns := 5
    state := GameState.Over 11 }

/-! ## Helper lemmas -/

theorem update_state_turns (g : Game) : g.update_state.turns = g.turns := by
  unfold Game.update_state
  split
  · rfl
  · split <;> rfl

theorem update_state_board (g : Game) : g.update_state.board = g.board := by
  unfold Game.update_state
  split
  · rfl
  · split <;> rfl

theorem update_state_state (g : Game) :
    g.update_state.state = g.state ∨ g.update_state.state = GameState.Draw ∨
      ∃ w, g.update_state.state = GameState.Over w := by
  unfold Game.update_state
  split
  · exact Or.inr (Or.inr ⟨_, rfl⟩)
  · split
    · exact Or.inr (Or.inl rfl)
    · exact Or.inl rfl

theorem rowWin_iff (b : Board) (i : Fin 3) :
    rowWin b i = true ↔ ∃ s, ∀ j : Fin 3, b i j = some s := by
  unfold rowWin
  constructor
  · intro h
    simp only [Bool.and_eq_true, decide_eq_true_eq, Option.isSome_iff_exists] at h
    obtain ⟨⟨⟨s, hs⟩, h1⟩, h2⟩ := h
    refine ⟨s, fun j => ?_⟩
    fin_cases j <;> simp_all
  · rintro ⟨s, hs⟩
    have h0 := hs 0
    have h1 := hs 1
    have h2 := hs 2
    simp [h0, h1, h2]

theorem colWin_iff (b : Board) (j : Fin 3) :
    colWin b j = true ↔ ∃ s, ∀ i : Fin 3, b i j = some s := by
  unfold colWin
  constructor
  · intro h
    simp only [Bool.and_eq_true, decide_eq_true_eq, Option.isSome_iff_exists] at h
    obtain ⟨⟨⟨s, hs⟩, h1⟩, h2⟩ := h
    refine ⟨s, fun i => ?_⟩
    fin_cases i <;> simp_all
  · rintro ⟨s, hs⟩
    have h0 := hs 0
    have h1 := hs 1
    have h2 := hs 2
    simp [h0, h1, h2]

theorem lineDetect_iff (b : Board) :
    (rowWin b 0 || colWin b 0 || rowWin b 1 || colWin b 1 ||
      rowWin b 2 || colWin b 2) = true ↔ hasLineSpec b := by
  simp only [Bool.or_eq_true, rowWin_iff, colWin_iff, hasLineSpec]
  constructor
  · rintro (((((⟨s, h⟩ | ⟨s, h⟩) | ⟨s, h⟩) | ⟨s, h⟩) | ⟨s, h⟩) | ⟨s, h⟩)
    · exact ⟨s, Or.inl ⟨0, h⟩⟩
    · exact ⟨s, Or.inr ⟨0, h⟩⟩
    · exact ⟨s, Or.inl ⟨1, h⟩⟩
    · exact ⟨s, Or.inr ⟨1, h⟩⟩
    · exact ⟨s, Or.inl ⟨2, h⟩⟩
    · exact ⟨s, Or.inr ⟨2, h⟩⟩
  · rintro ⟨s, ⟨i, h⟩ | ⟨j, h⟩⟩
    · fin_cases i
      · exact Or.inl (Or.inl (Or.inl (Or.inl (Or.inl ⟨s, h⟩))))
      · exact Or.inl (Or.inl (Or.inl (Or.inr ⟨s, h⟩)))
      · exact Or.inl (Or.inr ⟨s, h⟩)
    · fin_cases j
      · exact Or.inl (Or.inl (Or.inl (Or.inl (Or.inr ⟨s, h⟩))))
      · exact Or.inl (Or.inl (Or.inr ⟨s, h⟩))
      · exact Or.inr ⟨s, h⟩

/-! ## Claim theorems -/

/-- C1: at `demoXAboutToWin` the acting player (the turn owner before
the move) is `players 0`, whose move at `(0,2)` completes row 0; yet the
state recorded by `play` is `Over (players 1)` — the code declares the
opponent of the acting player the winner, because `update_state` reads
`players[turns % 2]` after `turns` was already incremented. -/
theorem play_winning_move_records_opponent_as_winner :
    (demoXAboutToWin.play 0 2).stateOf =
      some (GameState.Over (demoXAboutToWin.players 1)) ∧
    demoXAboutToWin.playerAtTurn = demoXAboutToWin.players 0 ∧
    demoXAboutToWin.players 0 ≠ demoXAboutToWin.players 1 := by
  decide

/-- C2: a fully valid `play_game` call succeeds, yet the persisted game
record is the untouched `demoOngoing` — cell `(0,0)` still empty and
`turns` still `0` — while the in-memory record built by `play` (and then
dropped, since the handler never serializes it back) had `turns = 1`. -/
theorem play_game_success_persists_nothing :
    play_game demoPlayInput 0 0 = PlayRes.ok demoOngoing ∧
    demoOngoing.board 0 0 = none ∧
    demoOngoing.turns = 0 ∧
    (demoOngoing.playAuth 10 0 0).turnsOf = some 1 := by
  decide

/-- C3: playing `row = 3` (or `col = 3`) on an ongoing game panics with
an out-of-bounds index instead of failing `InvalidTileSelected`, because
the bounds check is `row > 3 || col > 3`; values `≥ 4` do fail with
`InvalidTileSelected`. -/
theorem play_row_three_panics :
    demoOngoing.play 3 0 = PlayRes.panicked ∧
    demoOngoing.play 0 3 = PlayRes.panicked ∧
    demoOngoing.play 4 0 = PlayRes.err (.Custom .InvalidTileSelected) ∧
    demoOngoing.play 0 4 = PlayRes.err (.Custom .InvalidTileSelected) := by
  decide

/-- C4: for the authorized `play` the processor invokes (the
authorization step is modelled from the spec, see `Game.playAuth`):
a caller other than the turn owner `players[turns mod 2]`, on an
ongoing game with an in-range empty tile, fails `CanNotPlay`; and any
successful play was made by the turn owner and incremented `turns` by
exactly 1. -/
theorem playAuth_wrong_player_fails_CanNotPlay :
    (∀ (g : Game) (p : Pubkey) (row col : Nat) (hr : row < 3) (hc : col < 3),
      g.state = GameState.Ongoing →
      g.board ⟨row, hr⟩ ⟨col, hc⟩ = none →
      p ≠ g.playerAtTurn →
      g.playAuth p row col = .err (.Custom .CanNotPlay)) ∧
    (∀ (g : Game) (p : Pubkey) (row col : Nat) (g2 : Game),
      g.turns < 255 →
      g.playAuth p row col = .ok g2 →
      p = g.playerAtTurn ∧ g2.turns = g.turns + 1) := by
  constructor
  · intro g p row col hr hc hstate hcell hp
    unfold Game.playAuth
    rw [if_neg (by rw [hstate]; simp), if_neg (by rw [hstate]; simp),
        if_neg (by omega), dif_pos ⟨hr, hc⟩]
    rw [hcell]
    rw [if_pos hp]
  · intro g p row col g2 hlt h
    unfold Game.playAuth at h
    split at h
    · exact PlayRes.noConfusion h
    split at h
    · exact PlayRes.noConfusion h
    split at h
    · exact PlayRes.noConfusion h
    split at h
    · split at h
      · exact PlayRes.noConfusion h
      · split at h
        · exact PlayRes.noConfusion h
        · rename_i hnp
          injection h with h2
          subst h2
          refine ⟨Decidable.not_not.mp hnp, ?_⟩
          rw [update_state_turns]
          exact Nat.mod_eq_of_lt (by omega)
    · exact PlayRes.noConfusion h

/-- Witness for C4: on `demoOngoing` (turn owner `10`), intruder `99`
fails `CanNotPlay` at the empty in-range tile `(0,0)`, while the turn
owner's successful move produced `turns = 0 + 1`. -/
theorem playAuth_wrong_player_fails_CanNotPlay_w :
    demoOngoing.playAuth 99 0 0 = PlayRes.err (.Custom .CanNotPlay) ∧
    (10 = demoOngoing.playerAtTurn ∧ demoAfter00.turns = demoOngoing.turns + 1) := by
  constructor
  · exact playAuth_wrong_player_fails_CanNotPlay.1 demoOngoing 99 0 0
      (by omega) (by omega) (by decide) (by decide) (by decide)
  · exact playAuth_wrong_player_fails_CanNotPlay.2 demoOngoing 10 0 0 demoAfter00
      (by decide) (by decide)


/-- C5: when every check preceding line 70 of `src/processor.rs` passes,
`create_game` fails `IllegalOwner` whenever the mint account's address
or the token account's address differs from the SPL token program id;
consequently a successful create forces both addresses to equal the
token program id itself — never an ordinary mint. -/
theorem create_game_needs_mint_key_eq_token_program :
    (∀ (inp : CreateInput) (p2 : Pubkey) (amt : Nat),
      amt ≠ 0 → p2 ≠ inp.player.key →
      inp.player.isSigner = true → inp.game_account.isSigner = true →
      inp.system_program.key = SYSTEM_PROGRAM_ID →
      inp.token_program.key = TOKEN_PROGRAM_ID →
      inp.escrow.key = escrowKeyFor inp.mint.key inp.program_id →
      (inp.mint.key ≠ TOKEN_PROGRAM_ID ∨ inp.token_account.key ≠ TOKEN_PROGRAM_ID) →
      create_game inp p2 amt = .error ProgErr.IllegalOwner) ∧
    (∀ (inp : CreateInput) (p2 : Pubkey) (amt : Nat) (res : Game × Transfer),
      create_game inp p2 amt = .ok res →
      inp.mint.key = TOKEN_PROGRAM_ID ∧ inp.token_account.key = TOKEN_PROGRAM_ID) := by
  constructor
  · intro inp p2 amt h0 h1 h2 h3 h4 h5 h6 h7
    unfold create_game
    rw [if_neg (by tauto), if_neg (by simp [h2, h3]), if_neg (by simp [h4, h5]),
        if_neg (by simp [h6]), if_pos h7]
  · intro inp p2 amt res h
    unfold create_game at h
    split at h
    · exact Except.noConfusion h
    split at h
    · exact Except.noConfusion h
    split at h
    · exact Except.noConfusion h
    split at h
    · exact Except.noConfusion h
    split at h
    · exact Except.noConfusion h
    · rename_i hmint
      push_neg at hmint
      exact hmint

/-- Witness for C5: a call over ordinary mint `3` fails `IllegalOwner`;
the only mint address a successful create tolerates is the token
program id (as in `demoCreateTokenMint`). -/
theorem create_game_needs_mint_key_eq_token_program_w :
    create_game demoCreateBadMint 11 100 = .error ProgErr.IllegalOwner ∧
    (demoCreateTokenMint.mint.key = TOKEN_PROGRAM_ID ∧
      demoCreateTokenMint.token_account.key = TOKEN_PROGRAM_ID) := by
  constructor
  · exact create_game_needs_mint_key_eq_token_program.1 demoCreateBadMint 11 100
      (by decide) (by decide) (by decide) (by decide) (by decide) (by decide)
      (by decide) (Or.inl (by decide))
  · exact create_game_needs_mint_key_eq_token_program.2 demoCreateTokenMint 11 100
      demoCreatedOk (by rfl)

/-- C10: `create_game` with `stake_amount = 0` or with the invitee
equal to the creator fails `InvalidArgument` as its very first check;
the error return means no game record and no transfer is produced. -/
theorem create_game_rejects_zero_stake_and_self_invite
    (inp : CreateInput) (player_two : Pubkey) (stake_amount : Nat)
    (h : stake_amount = 0 ∨ player_two = inp.player.key) :
    create_game inp player_two stake_amount = .error ProgErr.InvalidArgument := by
  unfold create_game
  rw [if_pos h]

/-- Witness for C10: zero stake, and self-invitation by player `10`,
each rejected on an otherwise fully valid input. -/
theorem create_game_rejects_zero_stake_and_self_invite_w :
    create_game demoCreateTokenMint 11 0 = .error ProgErr.InvalidArgument ∧
    create_game demoCreateTokenMint 10 100 = .error ProgErr.InvalidArgument := by
  constructor
  · exact create_game_rejects_zero_stake_and_self_invite demoCreateTokenMint 11 0
      (Or.inl rfl)
  · exact create_game_rejects_zero_stake_and_self_invite demoCreateTokenMint 10 100
      (Or.inr rfl)


/-- C6: for `close_game` under the account-validation hypotheses that
precede the state dispatch: an `Unaccepted` game fails `UnacceptedGame`
and an `Ongoing` game fails `OngoingGame`; any success requires the
caller to be `players[0]`; on `Draw` exactly `stake_amount` flows from
escrow to each player's validated receiving account, and on
`Over {winner}` exactly `2 * stake_amount` flows to the winner's
validated receiving account. -/
theorem close_game_settlement (inp : CloseInput)
    (hown : inp.game_account.owner = inp.program_id)
    (hesc : inp.escrow.owner = TOKEN_PROGRAM_ID)
    (htp : inp.token_program.key = TOKEN_PROGRAM_ID)
    (hsp : inp.system_program.key = SYSTEM_PROGRAM_ID)
    (hauth : inp.authority.key = authorityKeyFor inp.program_id)
    (hesck : inp.escrow.key = escrowKeyFor inp.game.stake_mint inp.program_id) :
    (inp.player_one.key = inp.game.players 0 →
      inp.game.state = GameState.Unaccepted →
      close_game inp = .err (.Custom .UnacceptedGame)) ∧
    (inp.player_one.key = inp.game.players 0 →
      inp.game.state = GameState.Ongoing →
      close_game inp = .err (.Custom .OngoingGame)) ∧
    (∀ ts, close_game inp = .ok ts → inp.player_one.key = inp.game.players 0) ∧
    (∀ acc1 d1 acc2 d2 tl,
      inp.player_one.key = inp.game.players 0 →
      inp.game.state = GameState.Draw →
      inp.rest = (acc1, some d1) :: (acc2, some d2) :: tl →
      acc1.owner = TOKEN_PROGRAM_ID → acc2.owner = TOKEN_PROGRAM_ID →
      d1.owner = inp.game.players 0 → d2.owner = inp.game.players 1 →
      d1.mint = inp.game.stake_mint → d2.mint = inp.game.stake_mint →
      close_game inp = .ok
        [{ source := inp.escrow.key, dest := acc1.key, amount := inp.game.stake_amount },
         { source := inp.escrow.key, dest := acc2.key, amount := inp.game.stake_amount }]) ∧
    (∀ w acc d tl,
      inp.player_one.key = inp.game.players 0 →
      inp.game.state = GameState.Over w →
      inp.rest = (acc, some d) :: tl →
      acc.owner = TOKEN_PROGRAM_ID → d.owner = w → d.mint = inp.game.stake_mint →
      inp.game.stake_amount < 2 ^ 63 →
      close_game inp = .ok
        [{ source := inp.escrow.key, dest := acc.key,
           amount := 2 * inp.game.stake_amount }]) := by
  refine ⟨?_, ?_, ?_, ?_, ?_⟩
  · intro hcall hstate
    unfold close_game
    rw [if_neg (by simp [hown]), if_neg (by simp [hesc]), if_neg (by simp [htp, hsp]),
        if_neg (by simp [hauth]), if_neg (by simp [hcall]), if_neg (by simp [hesck]),
        hstate]
  · intro hcall hstate
    unfold close_game
    rw [if_neg (by simp [hown]), if_neg (by simp [hesc]), if_neg (by simp [htp, hsp]),
        if_neg (by simp [hauth]), if_neg (by simp [hcall]), if_neg (by simp [hesck]),
        hstate]
  · intro ts h
    unfold close_game at h
    split at h
    · exact CloseRes.noConfusion h
    split at h
    · exact CloseRes.noConfusion h
    split at h
    · exact CloseRes.noConfusion h
    split at h
    · exact CloseRes.noConfusion h
    split at h
    · exact CloseRes.noConfusion h
    · rename_i hc
      exact Decidable.not_not.mp hc
  · intro acc1 d1 acc2 d2 tl hcall hstate hrest ho1 ho2 hd1 hd2 hm1 hm2
    unfold close_game
    rw [if_neg (by simp [hown]), if_neg (by simp [hesc]), if_neg (by simp [htp, hsp]),
        if_neg (by simp [hauth]), if_neg (by simp [hcall]), if_neg (by simp [hesck]),
        hstate, hrest]
    dsimp only
    rw [if_neg (by simp [ho1, ho2]), if_neg (by simp [hd1, hd2]),
        if_neg (by simp [hm1, hm2])]
  · intro w acc d tl hcall hstate hrest hacc hdo hdm hlt
    unfold close_game
    rw [if_neg (by simp [hown]), if_neg (by simp [hesc]), if_neg (by simp [htp, hsp]),
        if_neg (by simp [hauth]), if_neg (by simp [hcall]), if_neg (by simp [hesck]),
        hstate, hrest]
    dsimp only
    rw [if_neg (by simp [hacc]), if_neg (by simp [hdo, hdm])]
    have h64 : 2 * inp.game.stake_amount % 2 ^ 64 = 2 * inp.game.stake_amount := by
      apply Nat.mod_eq_of_lt
      have : (2 : Nat) ^ 64 = 2 * 2 ^ 63 := by norm_num
      omega
    rw [h64]

/-- Witness for C6: on concrete inputs, closing an unaccepted game and
an ongoing game fail with the stated errors, a drawn game pays `100` to
each player's account, and a won game pays `200` to the winner's. -/
theorem close_game_settlement_w :
    close_game demoCloseUnaccepted = .err (.Custom .UnacceptedGame) ∧
    close_game demoCloseOngoing = .err (.Custom .OngoingGame) ∧
    close_game demoCloseDraw = .ok
      [{ source := escrowKeyFor 3 55, dest := 701, amount := 100 },
       { source := escrowKeyFor 3 55, dest := 702, amount := 100 }] ∧
    close_game demoCloseOver = .ok
      [{ source := escrowKeyFor 3 55, dest := 703, amount := 200 }] := by
  refine ⟨?_, ?_, ?_, ?_⟩
  · exact (close_game_settlement demoCloseUnaccepted rfl rfl rfl rfl rfl rfl).1 rfl rfl
  · exact (close_game_settlement demoCloseOngoing rfl rfl rfl rfl rfl rfl).2.1 rfl rfl
  · exact (close_game_settlement demoCloseDraw rfl rfl rfl rfl rfl rfl).2.2.2.1
      _ _ _ _ [] rfl rfl rfl rfl rfl rfl rfl rfl rfl
  · exact (close_game_settlement demoCloseOver rfl rfl rfl rfl rfl rfl).2.2.2.2
      11 _ _ [] rfl rfl rfl rfl rfl rfl (by decide)


set_option maxHeartbeats 1600000 in
/-- C7: states only move forward along
`Unaccepted → Ongoing → (Over | Draw)`. A successful `accept_game`
starts from `Unaccepted` and persists `Ongoing`; a successful play
(both the `src/state.rs` `play` and the authorized variant) starts from
`Ongoing` and ends in `Ongoing`, `Draw` or `Over`; `create_game` writes
`Unaccepted`; `close_game` succeeds only on a terminal state and
`cancel_game` only on `Unaccepted`, and neither rewrites the state, so
no committed operation leaves a terminal state. -/
theorem game_state_forward_only :
    (∀ (inp : AcceptInput) (g2 : Game), accept_game inp = .ok g2 →
      inp.game.state = GameState.Unaccepted ∧ g2.state = GameState.Ongoing) ∧
    (∀ (g : Game) (row col : Nat) (g2 : Game), g.play row col = .ok g2 →
      g.state = GameState.Ongoing ∧
      (g2.state = GameState.Ongoing ∨ g2.state = GameState.Draw ∨
        ∃ w, g2.state = GameState.Over w)) ∧
    (∀ (g : Game) (p : Pubkey) (row col : Nat) (g2 : Game),
      g.playAuth p row col = .ok g2 →
      g.state = GameState.Ongoing ∧
      (g2.state = GameState.Ongoing ∨ g2.state = GameState.Draw ∨
        ∃ w, g2.state = GameState.Over w)) ∧
    (∀ (inp : CreateInput) (p2 : Pubkey) (amt : Nat) (g2 : Game) (t : Transfer),
      create_game inp p2 amt = .ok (g2, t) → g2.state = GameState.Unaccepted) ∧
    (∀ (inp : CloseInput) (ts : List Transfer), close_game inp = .ok ts →
      inp.game.state = GameState.Draw ∨ ∃ w, inp.game.state = GameState.Over w) ∧
    (∀ (inp : CancelInput) (t : Transfer), cancel_game inp = .ok t →
      inp.game.state = GameState.Unaccepted) := by
  refine ⟨?_, ?_, ?_, ?_, ?_, ?_⟩
  · intro inp g2 h
    unfold accept_game at h
    split at h
    · exact Except.noConfusion h
    split at h
    · exact Except.noConfusion h
    split at h
    · exact Except.noConfusion h
    split at h
    · exact Except.noConfusion h
    split at h
    · exact Except.noConfusion h
    split at h
    · exact Except.noConfusion h
    split at h
    · exact Except.noConfusion h
    rename_i hstate
    split at h
    · exact Except.noConfusion h
    split at h
    · exact Except.noConfusion h
    split at h
    · exact Except.noConfusion h
    injection h with h2
    subst h2
    exact ⟨Decidable.not_not.mp hstate, rfl⟩
  · intro g row col g2 h
    unfold Game.play at h
    split at h
    · exact PlayRes.noConfusion h
    split at h
    · exact PlayRes.noConfusion h
    rename_i hstate
    split at h
    · exact PlayRes.noConfusion h
    split at h
    · split at h
      · exact PlayRes.noConfusion h
      · injection h with h2
        subst h2
        refine ⟨Decidable.not_not.mp hstate, ?_⟩
        rcases update_state_state _ with h3 | h3 | ⟨w, h3⟩
        · left
          rw [h3]
          exact Decidable.not_not.mp hstate
        · right; left; exact h3
        · right; right; exact ⟨w, h3⟩
    · exact PlayRes.noConfusion h
  · intro g p row col g2 h
    unfold Game.playAuth at h
    split at h
    · exact PlayRes.noConfusion h
    split at h
    · exact PlayRes.noConfusion h
    rename_i hstate
    split at h
    · exact PlayRes.noConfusion h
    split at h
    · split at h
      · exact PlayRes.noConfusion h
      · split at h
        · exact PlayRes.noConfusion h
        · injection h with h2
          subst h2
          refine ⟨Decidable.not_not.mp hstate, ?_⟩
          rcases update_state_state _ with h3 | h3 | ⟨w, h3⟩
          · left
            rw [h3]
            exact Decidable.not_not.mp hstate
          · right; left; exact h3
          · right; right; exact ⟨w, h3⟩
    · exact PlayRes.noConfusion h
  · intro inp p2 amt g2 t h
    unfold create_game at h
    split at h
    · exact Except.noConfusion h
    split at h
    · exact Except.noConfusion h
    split at h
    · exact Except.noConfusion h
    split at h
    · exact Except.noConfusion h
    split at h
    · exact Except.noConfusion h
    split at h
    · exact Except.noConfusion h
    split at h
    · exact Except.noConfusion h
    split at h
    · exact Except.noConfusion h
    injection h with h2
    injection h2 with h3 h4
    subst h3
    rfl
  · intro inp ts h
    unfold close_game at h
    split at h
    · exact CloseRes.noConfusion h
    split at h
    · exact CloseRes.noConfusion h
    split at h
    · exact CloseRes.noConfusion h
    split at h
    · exact CloseRes.noConfusion h
    split at h
    · exact CloseRes.noConfusion h
    split at h
    · exact CloseRes.noConfusion h
    split at h
    · exact CloseRes.noConfusion h
    · exact CloseRes.noConfusion h
    · rename_i hst
      exact Or.inl hst
    · rename_i w hst
      exact Or.inr ⟨w, hst⟩
  · intro inp t h
    unfold cancel_game at h
    split at h
    · exact Except.noConfusion h
    split at h
    · exact Except.noConfusion h
    split at h
    · exact Except.noConfusion h
    split at h
    · exact Except.noConfusion h
    split at h
    · exact Except.noConfusion h
    split at h
    · exact Except.noConfusion h
    rename_i hstate
    exact Decidable.not_not.mp hstate

/-- Witness for C7: accepting `demoAcceptInput` moves
`Unaccepted → Ongoing`, and the winning move on `demoXAboutToWin`
moves `Ongoing` to a terminal `Over` state. -/
theorem game_state_forward_only_w :
    (demoAcceptInput.game.state = GameState.Unaccepted ∧
      demoOngoing.state = GameState.Ongoing) ∧
    (demoXAboutToWin.state = GameState.Ongoing ∧
      (demoXWon.state = GameState.Ongoing ∨ demoXWon.state = GameState.Draw ∨
        ∃ w, demoXWon.state = GameState.Over w)) := by
  exact ⟨game_state_forward_only.1 demoAcceptInput demoOngoing (by rfl),
         game_state_forward_only.2.1 demoXAboutToWin 0 2 demoXWon (by decide)⟩


/-- C8: terminal detection on an ongoing game declares a winner iff
some row or some column holds three identical occupied symbols
(diagonals are never consulted); when no such line exists the state
becomes `Draw` exactly when `turns = 9` and is otherwise unchanged; the
board and turn counter are never modified by detection. -/
theorem update_state_line_characterization (g : Game)
    (hg : g.state = GameState.Ongoing) :
    ((∃ w, g.update_state.state = GameState.Over w) ↔ hasLineSpec g.board) ∧
    (¬ hasLineSpec g.board →
      g.update_state.state = if g.turns = 9 then GameState.Draw else g.state) ∧
    g.update_state.board = g.board ∧ g.update_state.turns = g.turns := by
  refine ⟨⟨?_, ?_⟩, ?_, update_state_board g, update_state_turns g⟩
  · rintro ⟨w, hw⟩
    unfold Game.update_state at hw
    split at hw
    · rename_i hline
      exact (lineDetect_iff g.board).mp hline
    · split at hw
      · exact absurd hw (by simp)
      · rw [hg] at hw
        exact absurd hw (by simp)
  · intro hline
    unfold Game.update_state
    rw [if_pos ((lineDetect_iff g.board).mpr hline)]
    exact ⟨_, rfl⟩
  · intro hnl
    unfold Game.update_state
    rw [if_neg (fun hc => hnl ((lineDetect_iff g.board).mp hc))]
    by_cases h9 : g.turns = 9 <;> simp [h9]

/-- Witness for C8 at the concrete ongoing position
`demoXAboutToWin`. -/
theorem update_state_line_characterization_w :
    ((∃ w, demoXAboutToWin.update_state.state = GameState.Over w) ↔
      hasLineSpec demoXAboutToWin.board) ∧
    (¬ hasLineSpec demoXAboutToWin.board →
      demoXAboutToWin.update_state.state =
        if demoXAboutToWin.turns = 9 then GameState.Draw else demoXAboutToWin.state) ∧
    demoXAboutToWin.update_state.board = demoXAboutToWin.board ∧
    demoXAboutToWin.update_state.turns = demoXAboutToWin.turns :=
  update_state_line_characterization demoXAboutToWin (by rfl)

/-- C9 counterexample: the buffer `[1, 0]` carries opcode 1 (Accept,
whose fixed layout has an empty payload) plus one surplus byte, yet
decoding succeeds instead of failing `InvalidInstructionData`; and the
empty buffer panics (`split_first().unwrap()`) instead of failing. -/
theorem unpack_malformed_payload_not_rejected :
    unpack_from_slice [1, 0] = UnpackRes.ok Instruction.AcceptGame ∧
    unpack_from_slice [] = UnpackRes.panicked := by
  decide

/-- C9 (amended): decoding fails with `InvalidInstructionData` exactly
when the buffer is nonempty and either its opcode byte exceeds 4, or
the opcode is 2 with payload length different from 2; an empty buffer,
and opcode 0 with fewer than 40 payload bytes, panic instead of
returning the error; all other payload-length mismatches (surplus
bytes) are accepted. -/
theorem unpack_error_characterization :
    ∀ d : List Nat,
      (unpack_from_slice d = .err ProgErr.InvalidInstructionData ↔
        ∃ b t, d = b :: t ∧ (5 ≤ b ∨ (b = 2 ∧ t.length ≠ 2))) ∧
      (unpack_from_slice d = .panicked ↔
        (d = [] ∨ ∃ t, d = 0 :: t ∧ t.length < 40)) := by
  intro d
  match d with
  | [] => simp [unpack_from_slice]
  | 0 :: t =>
    by_cases hl : t.length < 40 <;>
      simp [unpack_from_slice, hl]
  | 1 :: t => simp [unpack_from_slice]
  | 2 :: t =>
    match t with
    | [] =>
      simp [unpack_from_slice]
      exact ⟨2, [], ⟨rfl, rfl⟩, Or.inr ⟨rfl, by simp⟩⟩
    | [r] =>
      simp [unpack_from_slice]
      exact ⟨2, [r], ⟨rfl, rfl⟩, Or.inr ⟨rfl, by simp⟩⟩
    | [r, c] => simp [unpack_from_slice]
    | r :: c :: x :: xs =>
      simp [unpack_from_slice]
      exact ⟨2, r :: c :: x :: xs, ⟨rfl, rfl⟩, Or.inr ⟨rfl, by simp [List.length_cons]⟩⟩
  | 3 :: t => simp [unpack_from_slice]
  | 4 :: t => simp [unpack_from_slice]
  | (n + 5) :: t =>
    simp [unpack_from_slice]
    exact ⟨n + 5, t, ⟨rfl, rfl⟩, Or.inl (by omega)⟩

/-- Witness for C9: opcode `7` is rejected with
`InvalidInstructionData`, and opcode 0 with no payload panics. -/
theorem unpack_error_characterization_w :
    unpack_from_slice [7] = .err ProgErr.InvalidInstructionData ∧
    unpack_from_slice [0] = .panicked := by
  exact ⟨(unpack_error_characterization [7]).1.mpr ⟨7, [], rfl, Or.inl (by omega)⟩,
         (unpack_error_characterization [0]).2.mpr (Or.inr ⟨[], rfl, by simp⟩)⟩

end TicTacToe
